import Mathlib

/-!
Verification development for the Ally provider-registry subsystem
(app/src/providers/: __init__.py, base_provider.py, builtin/*.py,
custom/minimax.py).

The Python code is shallowly embedded:
- A provider class is a record of the values its descriptive methods
  return (the name property, get_display_name, get_required_env_vars,
  get_default_model, get_available_models, supports_streaming).
  Providers are stateless, so class and instance collapse.
- The registry dictionary self._providers is an insertion-ordered
  association list with replace-in-place on key reassignment, exactly
  the observable semantics of a Python dict.
- Strings are modelled over the ASCII repertoire: str.lower maps
  A-Z to a-z (pyLower) and str.isdigit holds of nonempty
  all-ASCII-digit strings. Every string occurring in the repository
  is ASCII.
- Python exceptions during plugin import or class instantiation are
  modelled with Except / Option error values carried by the input
  data; the discovery loop itself is a total Lean function, mirroring
  the fact that the Python loop catches every exception at the
  per-module boundary and never propagates one.
- os.getenv("MINIMAX_GROUP_ID") is modelled by an explicit
  (env : Option String) argument threaded into the one function that
  reads it, MinimaxProvider.validate_config.
-/

/-- A provider class, identified by the values of its descriptive
methods.  classId distinguishes distinct Python class objects that
could report equal metadata. -/
structure ProviderClassV where
  classId : Nat
  name : String
  display_name : String
  required_env_vars : List String
  default_model : Option String
  available_models : List String
  supports_streaming : Bool
deriving DecidableEq, Repr, Inhabited

/-- The record returned by ProviderRegistry.get_provider_info. -/
structure ProviderInfo where
  name : String
  display_name : String
  required_env_vars : List String
  default_model : Option String
  available_models : List String
  supports_streaming : Bool
deriving DecidableEq, Repr

/-- builtin/ollama.py: OllamaProvider descriptive values. -/
def OllamaProviderCls : ProviderClassV :=
  { classId := 0
    name := "ollama"
    display_name := "Ollama (Local)"
    required_env_vars := []
    default_model := some "qwen2.5-coder:7b"
    available_models :=
      ["qwen2.5-coder:7b", "qwen2.5:latest", "llama3.2:latest",
       "codellama:latest", "mistral:latest"]
    supports_streaming := true }

/-- builtin/openai.py: OpenAIProvider descriptive values. -/
def OpenAIProviderCls : ProviderClassV :=
  { classId := 1
    name := "openai"
    display_name := "OpenAI"
    required_env_vars := ["OPENAI_API_KEY"]
    default_model := some "gpt-4o"
    available_models := ["gpt-4o", "gpt-4o-mini", "gpt-4-turbo", "gpt-3.5-turbo"]
    supports_streaming := true }

/-- builtin/anthropic.py: AnthropicProvider descriptive values. -/
def AnthropicProviderCls : ProviderClassV :=
  { classId := 2
    name := "anthropic"
    display_name := "Anthropic (Claude)"
    required_env_vars := ["ANTHROPIC_API_KEY"]
    default_model := some "claude-sonnet-4-5-20250929"
    available_models :=
      ["claude-sonnet-4-5-20250929", "claude-3-5-sonnet-20241022",
       "claude-3-5-haiku-20241022", "claude-3-opus-20240229"]
    supports_streaming := true }

/-- builtin/google.py: GoogleProvider descriptive values. -/
def GoogleProviderCls : ProviderClassV :=
  { classId := 3
    name := "google"
    display_name := "Google Gemini"
    required_env_vars := ["GOOGLE_GEN_AI_API_KEY"]
    default_model := some "gemini-2.0-flash-exp"
    available_models :=
      ["gemini-2.0-flash-exp", "gemini-2.5-flash", "gemini-1.5-pro",
       "gemini-1.5-flash"]
    supports_streaming := true }

/-- builtin/cerebras.py: CerebrasProvider descriptive values. -/
def CerebrasProviderCls : ProviderClassV :=
  { classId := 4
    name := "cerebras"
    display_name := "Cerebras"
    required_env_vars := ["CEREBRAS_API_KEY"]
    default_model := some "llama3.1-70b"
    available_models := ["llama3.1-70b", "llama3.1-8b"]
    supports_streaming := true }

/-- custom/minimax.py: MinimaxProvider descriptive values. -/
def MinimaxProviderCls : ProviderClassV :=
  { classId := 5
    name := "minimax"
    display_name := "MiniMax M2"
    required_env_vars := ["MINIMAX_API_KEY", "MINIMAX_GROUP_ID"]
    default_model := some "minimax-m2"
    available_models := ["minimax-m2"]
    supports_streaming := true }

/-- The hardcoded builtin_providers list of
ProviderRegistry._load_builtin_providers, in source order. -/
def builtinClasses : List ProviderClassV :=
  [OllamaProviderCls, OpenAIProviderCls, AnthropicProviderCls,
   GoogleProviderCls, CerebrasProviderCls]

/-! ### The registry dictionary (Python dict on string keys) -/

/-- The type of self._providers: provider identifier to provider class. -/
abbrev Dict : Type := List (String × ProviderClassV)

/-- Python dict key assignment d[k] = v: replace in place if the key is
present, append otherwise. -/
def dictInsert (k : String) (v : ProviderClassV) : Dict → Dict
  | [] => [(k, v)]
  | p :: rest => if p.1 = k then (k, v) :: rest else p :: dictInsert k v rest

/-- Python dict .get(k): the value at k, or None. -/
def lookupDict : Dict → String → Option ProviderClassV
  | [], _ => none
  | p :: rest, k => if p.1 = k then some p.2 else lookupDict rest k

/-- Python `k in d` membership test. -/
def dictContains (m : Dict) (k : String) : Bool :=
  (lookupDict m k).isSome

/-- The key list of the dictionary, in insertion order
(Python dict iteration order). -/
def dictKeys (m : Dict) : List String :=
  m.map Prod.fst

/-! ### Registry query operations (ProviderRegistry methods) -/

/-- Python str.lower on one character, over the ASCII repertoire in
which all identifiers of this repository live. -/
def pyLowerChar (c : Char) : Char :=
  if 65 ≤ c.toNat ∧ c.toNat ≤ 90 then Char.ofNat (c.toNat + 32) else c

/-- Python str.lower over the ASCII repertoire. -/
def pyLower (s : String) : String :=
  ⟨s.data.map pyLowerChar⟩

/-- Lexicographic code-point comparison of character lists, the order
Python string comparison uses. -/
def lexLe : List Char → List Char → Bool
  | [], _ => true
  | _ :: _, [] => false
  | a :: as, b :: bs =>
      if a.toNat < b.toNat then true
      else if b.toNat < a.toNat then false
      else lexLe as bs

/-- Lexicographic code-point order on strings (Python string
comparison, as used by sorted). -/
def strLe (a b : String) : Bool :=
  lexLe a.data b.data

instance : DecidableRel (fun a b : String => strLe a b = true) :=
  fun a b => instDecidableEqBool (strLe a b) true

/-- ProviderRegistry.get_provider: case-insensitive lookup, None when
absent. -/
def get_provider (m : Dict) (provider_name : String) : Option ProviderClassV :=
  lookupDict m (pyLower provider_name)

/-- ProviderRegistry.list_providers: sorted(self._providers.keys()). -/
def list_providers (m : Dict) : List String :=
  List.insertionSort (fun a b => strLe a b = true) (dictKeys m)

/-- ProviderRegistry.is_provider_available: lowercased membership test. -/
def is_provider_available (m : Dict) (provider_name : String) : Bool :=
  dictContains m (pyLower provider_name)

/-- ProviderRegistry.get_provider_info: None when get_provider misses,
otherwise the descriptive record read off a fresh instance. -/
def get_provider_info (m : Dict) (provider_name : String) : Option ProviderInfo :=
  match get_provider m provider_name with
  | none => none
  | some c =>
      some { name := c.name
             display_name := c.display_name
             required_env_vars := c.required_env_vars
             default_model := c.default_model
             available_models := c.available_models
             supports_streaming := c.supports_streaming }

/-! ### Custom-provider discovery (ProviderRegistry._discover_custom_providers) -/

/-- A diagnostic warning printed by the registry.  The Python text is
  "Warning: Custom provider NAME from MODULE.py overrides built-in provider"
for overrideW, and
  "Warning: Failed to load custom provider from MODULE.py: ERROR"
for loadFailure. -/
inductive RegWarning where
  | overrideW (provider_name : String) (module_name : String)
  | loadFailure (module_name : String) (error : String)
deriving DecidableEq, Repr

/-- One attribute found by iterating dir(module): classified by the three
boolean tests of the discovery filter, together with the class the
symbol denotes (meaningful only when the attribute is a qualifying
class) and whether calling attr() raises. -/
structure ModuleAttr where
  attrName : String
  isType : Bool
  subclassOfBaseProvider : Bool
  isBaseProviderItself : Bool
  cls : ProviderClassV := default
  initRaises : Option String := none
deriving DecidableEq, Repr

/-- The filter of the discovery loop: isinstance(attr, type) and
issubclass(attr, BaseProvider) and attr is not BaseProvider. -/
def qualifies (a : ModuleAttr) : Bool :=
  a.isType && a.subclassOfBaseProvider && !a.isBaseProviderItself

/-- A module found by pkgutil.iter_modules in providers/custom/.
importResult is the outcome of importlib.import_module: the dir(module)
attribute listing on success, the raised exception text on failure. -/
structure PluginModule where
  module_name : String
  importResult : Except String (List ModuleAttr)

/-- The mutable state of the registry while it is being built:
self._providers plus the warnings printed so far. -/
structure RegState where
  providers : Dict
  warnings : List RegWarning
deriving DecidableEq

/-- Registration of one qualifying, successfully instantiated attribute:
read provider_instance.name, warn when the key is already present, then
assign self._providers[provider_name] = attr. -/
def registerAttr (module_name : String) (s : RegState) (a : ModuleAttr) : RegState :=
  let provider_name := a.cls.name
  let s1 :=
    if dictContains s.providers provider_name then
      { s with warnings := s.warnings ++ [RegWarning.overrideW provider_name module_name] }
    else s
  { s1 with providers := dictInsert provider_name a.cls s1.providers }

/-- The attribute loop inside the per-module try block.  A raising
instantiation aborts the remainder of the module (the exception reaches
the except clause, which prints the load-failure warning); attributes
already registered stay registered. -/
def processAttrs (module_name : String) (s : RegState) : List ModuleAttr → RegState
  | [] => s
  | a :: rest =>
      if qualifies a then
        match a.initRaises with
        | some e =>
            { s with warnings := s.warnings ++ [RegWarning.loadFailure module_name e] }
        | none => processAttrs module_name (registerAttr module_name s a) rest
      else processAttrs module_name s rest

/-- Processing of one plugin module: a failed import is caught and
downgraded to a load-failure warning; a successful import runs the
attribute loop. -/
def processModule (s : RegState) (m : PluginModule) : RegState :=
  match m.importResult with
  | Except.error e =>
      { s with warnings := s.warnings ++ [RegWarning.loadFailure m.module_name e] }
  | Except.ok attrs => processAttrs m.module_name s attrs

/-- ProviderRegistry._discover_custom_providers: sequential processing of
the modules listed in the custom directory. -/
def discoverCustomProviders (mods : List PluginModule) (s : RegState) : RegState :=
  mods.foldl processModule s

/-- ProviderRegistry._load_builtin_providers restricted to the first k
builtin classes: the dictionary after k iterations of the registration
loop (k = 5 is the full builtin load). -/
def builtinStage (k : Nat) : RegState :=
  { providers := (builtinClasses.take k).foldl (fun m c => dictInsert c.name c m) []
    warnings := [] }

/-- dir(minimax module) as the discovery loop sees it, restricted to the
classification-relevant attributes (alphabetical, as dir sorts): the
imported BaseProvider (a class, a subclass of itself, and the base
itself), the MinimaxProvider class, and representative non-qualifying
attributes (typing.Any is a class but not a BaseProvider subclass;
os is a module; dunder strings are not classes). -/
def minimaxModuleAttrs : List ModuleAttr :=
  [ { attrName := "Any", isType := true, subclassOfBaseProvider := false,
      isBaseProviderItself := false },
    { attrName := "BaseProvider", isType := true, subclassOfBaseProvider := true,
      isBaseProviderItself := true },
    { attrName := "MinimaxProvider", isType := true, subclassOfBaseProvider := true,
      isBaseProviderItself := false, cls := MinimaxProviderCls },
    { attrName := "__name__", isType := false, subclassOfBaseProvider := false,
      isBaseProviderItself := false },
    { attrName := "os", isType := false, subclassOfBaseProvider := false,
      isBaseProviderItself := false } ]

/-- The one module pkgutil.iter_modules finds in providers/custom/. -/
def minimaxModule : PluginModule :=
  { module_name := "minimax", importResult := Except.ok minimaxModuleAttrs }

/-- The registry state ProviderRegistry.__init__ reaches in this
repository: the five builtins loaded, then custom discovery over the
minimax module. -/
def theRegistry : RegState :=
  discoverCustomProviders [minimaxModule] (builtinStage 5)

/-! ### Configuration validation (validate_config methods) -/

/-- A configuration dictionary restricted to the keys the validate_config
methods read.  none models an absent key (dict.get returns None). -/
structure Config where
  model_name : Option String := none
  api_key : Option String := none
  group_id : Option String := none
deriving DecidableEq, Repr

/-- Python truthiness of a dict.get result: None and the empty string are
falsy. -/
def truthy : Option String → Bool
  | none => false
  | some s => !s.isEmpty

/-- Python `a or b` on dict.get / os.getenv results. -/
def pyOr (a b : Option String) : Option String :=
  if truthy a then a else b

/-- Python str.isdigit over the ASCII repertoire: nonempty and every
character a decimal digit. -/
def pyIsDigit (s : String) : Bool :=
  !s.isEmpty && s.data.all Char.isDigit

namespace OllamaProvider

/-- builtin/ollama.py OllamaProvider.validate_config. -/
def validate_config (config : Config) : Bool × Option String :=
  if !truthy config.model_name then
    (false, some "model_name is required for Ollama provider")
  else (true, none)

end OllamaProvider

namespace OpenAIProvider

/-- builtin/openai.py OpenAIProvider.validate_config. -/
def validate_config (config : Config) : Bool × Option String :=
  if !truthy config.model_name then
    (false, some "model_name is required for OpenAI provider")
  else if !truthy config.api_key then
    (false, some "OPENAI_API_KEY environment variable must be set")
  else (true, none)

end OpenAIProvider

namespace AnthropicProvider

/-- builtin/anthropic.py AnthropicProvider.validate_config. -/
def validate_config (config : Config) : Bool × Option String :=
  if !truthy config.model_name then
    (false, some "model_name is required for Anthropic provider")
  else if !truthy config.api_key then
    (false, some "ANTHROPIC_API_KEY environment variable must be set")
  else (true, none)

end AnthropicProvider

namespace GoogleProvider

/-- builtin/google.py GoogleProvider.validate_config. -/
def validate_config (config : Config) : Bool × Option String :=
  if !truthy config.model_name then
    (false, some "model_name is required for Google provider")
  else if !truthy config.api_key then
    (false, some "GOOGLE_GEN_AI_API_KEY environment variable must be set")
  else (true, none)

end GoogleProvider

namespace CerebrasProvider

/-- builtin/cerebras.py CerebrasProvider.validate_config. -/
def validate_config (config : Config) : Bool × Option String :=
  if !truthy config.model_name then
    (false, some "model_name is required for Cerebras provider")
  else if !truthy config.api_key then
    (false, some "CEREBRAS_API_KEY environment variable must be set")
  else (true, none)

end CerebrasProvider

namespace MinimaxProvider

/-- custom/minimax.py MinimaxProvider.validate_config.  env is the value
of os.getenv("MINIMAX_GROUP_ID").  The group id is
config.get("group_id") or os.getenv("MINIMAX_GROUP_ID"); a falsy result
(None or empty) is rejected as unset, then the 19-digit format check
runs. -/
def validate_config (env : Option String) (config : Config) : Bool × Option String :=
  if !truthy config.model_name then
    (false, some "model_name is required for MiniMax provider")
  else if !truthy config.api_key then
    (false, some "MINIMAX_API_KEY environment variable must be set. Get it from https://platform.minimax.io/")
  else
    match pyOr config.group_id env with
    | none =>
        (false, some "MINIMAX_GROUP_ID environment variable must be set. This is your 19-digit account identifier.")
    | some g =>
        if g.isEmpty then
          (false, some "MINIMAX_GROUP_ID environment variable must be set. This is your 19-digit account identifier.")
        else if !(pyIsDigit g) || g.length ≠ 19 then
          (false, some ("MINIMAX_GROUP_ID should be a 19-digit number, got: " ++ g))
        else (true, none)

end MinimaxProvider

/-- The five builtin provider variants, for quantifying over the builtin
set. -/
inductive BuiltinProvider where
  | ollama | openai | anthropic | google | cerebras
deriving DecidableEq, Repr

/-- Dispatch of validate_config over the builtin variants. -/
def BuiltinProvider.validate_config : BuiltinProvider → Config → Bool × Option String
  | .ollama => OllamaProvider.validate_config
  | .openai => OpenAIProvider.validate_config
  | .anthropic => AnthropicProvider.validate_config
  | .google => GoogleProvider.validate_config
  | .cerebras => CerebrasProvider.validate_config

/-- Every provider variant shipped in the repository. -/
inductive ProviderVariant where
  | builtin (b : BuiltinProvider)
  | minimax
deriving DecidableEq, Repr

/-- validate_config of any shipped variant, with the ambient
MINIMAX_GROUP_ID environment value made explicit (only the minimax
variant reads it). -/
def ProviderVariant.validate_config : ProviderVariant → Option String → Config → Bool × Option String
  | .builtin b, _, config => b.validate_config config
  | .minimax, env, config => MinimaxProvider.validate_config env config

/-- The empty configuration dictionary. -/
def emptyConfig : Config := {}

/-! ### Spec-side definitions used to state the claims -/

/-- Bool test that the first list is an initial segment of the second. -/
def listIsPrefixOf : List Char → List Char → Bool
  | [], _ => true
  | _ :: _, [] => false
  | a :: as, b :: bs => a = b && listIsPrefixOf as bs

/-- The string s starts with the string pre. -/
def strStartsWith (s pre : String) : Bool :=
  listIsPrefixOf pre.data s.data

/-- A config with group_id absent, used to exhibit the environment
dependence of the minimax validation. -/
def c9Config : Config :=
  { model_name := some "minimax-m2", api_key := some "key", group_id := none }

/-- The effective group id, taken from the config and falling back to
the environment, with the falsy-fallback semantics of the Python
expression config.get("group_id") or os.getenv("MINIMAX_GROUP_ID"). -/
def effectiveGroupId (env : Option String) (config : Config) : Option String :=
  pyOr config.group_id env

/-- A string of exactly 19 decimal digits. -/
def is19Digits (s : String) : Bool :=
  pyIsDigit s && s.length == 19

/-- The config has a present, non-empty group_id that is not a string of
exactly 19 digits. -/
def groupIdPresentNonEmptyBad (config : Config) : Bool :=
  match config.group_id with
  | some s => !s.isEmpty && !is19Digits s
  | none => false

/-- A config whose group_id is present but empty, used to exhibit the
falsy fallback to the environment. -/
def c10Config : Config :=
  { model_name := some "minimax-m2", api_key := some "key", group_id := some "" }

/-- A second class reporting the already-taken identifier ollama, as a
custom plugin could supply. -/
def overrideOllamaCls : ProviderClassV :=
  { classId := 100
    name := "ollama"
    display_name := "Ollama Alt"
    required_env_vars := []
    default_model := none
    available_models := []
    supports_streaming := true }

/-- The discovery-filter view of that class as an exported symbol. -/
def overrideOllamaAttr : ModuleAttr :=
  { attrName := "MyOllamaProvider", isType := true, subclassOfBaseProvider := true,
    isBaseProviderItself := false, cls := overrideOllamaCls }

/-- A custom plugin module exporting the colliding class. -/
def overrideOllamaModule : PluginModule :=
  { module_name := "my_ollama", importResult := Except.ok [overrideOllamaAttr] }

/-- A plugin module whose import raises. -/
def brokenModule : PluginModule :=
  { module_name := "broken",
    importResult := Except.error "ImportError: missing dependency" }

/-- The failure modes of one plugin module that the per-module
try/except of _discover_custom_providers turns into a single
load-failure warning: the import itself raises e (so good = [] and
nothing of the module runs), or, among the qualifying exported classes
in listing order, those in good instantiate successfully (and are
registered before the exception) and the next one raises e on
instantiation. -/
def moduleFailsWith (M : PluginModule) (good : List ModuleAttr) (e : String) : Prop :=
  (M.importResult = Except.error e ∧ good = []) ∨
  ∃ attrs a tl, M.importResult = Except.ok attrs ∧
    attrs.filter qualifies = good ++ a :: tl ∧
    (∀ b ∈ good, b.initRaises = none) ∧
    a.initRaises = some e

/-- A class registered by the failing module before its exception. -/
def partialOkCls : ProviderClassV :=
  { classId := 101
    name := "partialone"
    display_name := "Partial One"
    required_env_vars := []
    default_model := none
    available_models := []
    supports_streaming := true }

/-- The successfully instantiating exported symbol of the failing
module. -/
def partialOkAttr : ModuleAttr :=
  { attrName := "GoodProvider", isType := true, subclassOfBaseProvider := true,
    isBaseProviderItself := false, cls := partialOkCls }

/-- An exported qualifying symbol whose instantiation raises. -/
def partialRaisingAttr : ModuleAttr :=
  { attrName := "RaisingProvider", isType := true, subclassOfBaseProvider := true,
    isBaseProviderItself := false,
    initRaises := some "TypeError: abstract method not implemented" }

/-- A module whose second qualifying class raises after the first one
registered. -/
def partialFailModule : PluginModule :=
  { module_name := "partial",
    importResult := Except.ok [partialOkAttr, partialRaisingAttr] }

/-- The registry states this repository's construction passes through:
after each prefix of the builtin load, and after custom discovery. -/
def constructionStates : List RegState :=
  (List.range 6).map builtinStage ++ [theRegistry]

/-! ### Association-list lemmas for the registry dictionary -/

theorem lookupDict_dictInsert_self (m : Dict) (k : String) (v : ProviderClassV) :
    lookupDict (dictInsert k v m) k = some v := by
  induction m with
  | nil => simp [dictInsert, lookupDict]
  | cons p rest ih =>
      by_cases h : p.1 = k
      · simp [dictInsert, h, lookupDict]
      · simp [dictInsert, h, lookupDict, ih]

theorem dictContains_iff_mem (m : Dict) (k : String) :
    dictContains m k = true ↔ k ∈ dictKeys m := by
  induction m with
  | nil => simp [dictContains, lookupDict, dictKeys]
  | cons p rest ih =>
      by_cases h : p.1 = k
      · simp [dictContains, lookupDict, h, dictKeys]
      · simp [dictContains, lookupDict, h, dictKeys] at ih ⊢
        rw [ih]
        constructor
        · exact Or.inr
        · rintro (h21 | h2)
          · exact absurd h21.symm h
          · exact h2

theorem lookupDict_eq_none_of_not_mem (m : Dict) (k : String)
    (h : k ∉ dictKeys m) : lookupDict m k = none := by
  have hc : ¬ dictContains m k = true := fun hu => h ((dictContains_iff_mem m k).mp hu)
  unfold dictContains at hc
  cases hl : lookupDict m k with
  | none => rfl
  | some v => rw [hl] at hc; simp at hc

theorem dictKeys_nil : dictKeys [] = [] := rfl

theorem dictKeys_cons (p : String × ProviderClassV) (rest : Dict) :
    dictKeys (p :: rest) = p.1 :: dictKeys rest := rfl

theorem mem_dictKeys_dictInsert (m : Dict) (k x : String) (v : ProviderClassV) :
    x ∈ dictKeys (dictInsert k v m) ↔ x ∈ dictKeys m ∨ x = k := by
  induction m with
  | nil => simp [dictInsert, dictKeys_cons, dictKeys_nil]
  | cons p rest ih =>
      by_cases h : p.1 = k
      · rw [show dictInsert k v (p :: rest) = (k, v) :: rest from by simp [dictInsert, h]]
        rw [dictKeys_cons, dictKeys_cons]
        simp only [List.mem_cons, h]
        tauto
      · rw [show dictInsert k v (p :: rest) = p :: dictInsert k v rest from by
          simp [dictInsert, h]]
        rw [dictKeys_cons, dictKeys_cons]
        simp only [List.mem_cons]
        rw [ih]
        tauto

theorem nodup_dictKeys_dictInsert (m : Dict) (k : String) (v : ProviderClassV)
    (h : (dictKeys m).Nodup) : (dictKeys (dictInsert k v m)).Nodup := by
  induction m with
  | nil => simp [dictInsert, dictKeys_cons, dictKeys_nil]
  | cons p rest ih =>
      by_cases hp : p.1 = k
      · rw [show dictInsert k v (p :: rest) = (k, v) :: rest from by simp [dictInsert, hp]]
        rw [dictKeys_cons] at h ⊢
        rw [List.nodup_cons] at h ⊢
        exact ⟨hp ▸ h.1, h.2⟩
      · rw [show dictInsert k v (p :: rest) = p :: dictInsert k v rest from by
          simp [dictInsert, hp]]
        rw [dictKeys_cons] at h ⊢
        rw [List.nodup_cons] at h ⊢
        refine ⟨?_, ih h.2⟩
        intro hmem
        rcases (mem_dictKeys_dictInsert rest k p.1 v).mp hmem with h1 | h2
        · exact h.1 h1
        · exact hp h2

/-! ### Lexicographic order lemmas for list_providers -/

theorem lexLe_total : ∀ xs ys : List Char, lexLe xs ys = true ∨ lexLe ys xs = true
  | [], _ => Or.inl rfl
  | _ :: _, [] => Or.inr rfl
  | a :: as, b :: bs => by
      rcases Nat.lt_trichotomy a.toNat b.toNat with h | h | h
      · exact Or.inl (by simp [lexLe, h])
      · rcases lexLe_total as bs with ih | ih
        · exact Or.inl (by simp [lexLe, h, ih])
        · exact Or.inr (by simp [lexLe, h.symm, ih])
      · exact Or.inr (by simp [lexLe, h])

theorem lexLe_trans : ∀ xs ys zs : List Char,
    lexLe xs ys = true → lexLe ys zs = true → lexLe xs zs = true
  | [], _, _, _, _ => rfl
  | _ :: _, [], _, h1, _ => by simp [lexLe] at h1
  | _ :: _, _ :: _, [], _, h2 => by simp [lexLe] at h2
  | a :: as, b :: bs, c :: cs, h1, h2 => by
      simp only [lexLe] at h1 h2 ⊢
      rcases Nat.lt_trichotomy a.toNat b.toNat with hab | hab | hab
      · rcases Nat.lt_trichotomy b.toNat c.toNat with hbc | hbc | hbc
        · have : a.toNat < c.toNat := Nat.lt_trans hab hbc
          simp [this]
        · have : a.toNat < c.toNat := hbc ▸ hab
          simp [this]
        · simp [hbc, Nat.lt_asymm hbc] at h2
      · rcases Nat.lt_trichotomy b.toNat c.toNat with hbc | hbc | hbc
        · have : a.toNat < c.toNat := hab ▸ hbc
          simp [this]
        · simp [hab, hbc, Nat.lt_irrefl] at h1 h2 ⊢
          exact lexLe_trans as bs cs h1 h2
        · simp [hbc, Nat.lt_asymm hbc] at h2
      · simp [hab, Nat.lt_asymm hab] at h1

instance : IsTotal String (fun a b => strLe a b = true) :=
  ⟨fun a b => lexLe_total a.data b.data⟩

instance : IsTrans String (fun a b => strLe a b = true) :=
  ⟨fun a b c => lexLe_trans a.data b.data c.data⟩

/-! ### Discovery step lemmas -/

theorem registerAttr_providers (mn : String) (s : RegState) (a : ModuleAttr) :
    (registerAttr mn s a).providers = dictInsert a.cls.name a.cls s.providers := by
  unfold registerAttr
  by_cases h : dictContains s.providers a.cls.name
  · simp [h]
  · simp [h]

theorem registerAttr_warnings (mn : String) (s : RegState) (a : ModuleAttr) :
    (registerAttr mn s a).warnings =
      if dictContains s.providers a.cls.name then
        s.warnings ++ [RegWarning.overrideW a.cls.name mn]
      else s.warnings := by
  unfold registerAttr
  by_cases h : dictContains s.providers a.cls.name
  · simp [h]
  · simp [h]

theorem processAttrs_providers_congr (mn : String) (attrs : List ModuleAttr) :
    ∀ s t : RegState, s.providers = t.providers →
      (processAttrs mn s attrs).providers = (processAttrs mn t attrs).providers := by
  induction attrs with
  | nil => intro s t h; exact h
  | cons a rest ih =>
      intro s t h
      unfold processAttrs
      by_cases hq : qualifies a = true
      · cases hr : a.initRaises with
        | some e => simp [hq, hr, h]
        | none =>
            simp only [hq, hr, if_pos]
            apply ih
            rw [registerAttr_providers, registerAttr_providers, h]
      · simp only [hq]
        exact ih s t h

theorem processModule_providers_congr (m : PluginModule) (s t : RegState)
    (h : s.providers = t.providers) :
    (processModule s m).providers = (processModule t m).providers := by
  unfold processModule
  cases m.importResult with
  | error e => exact h
  | ok attrs => exact processAttrs_providers_congr m.module_name attrs s t h

theorem discover_providers_congr (mods : List PluginModule) :
    ∀ s t : RegState, s.providers = t.providers →
      (discoverCustomProviders mods s).providers =
        (discoverCustomProviders mods t).providers := by
  induction mods with
  | nil => intro s t h; exact h
  | cons m rest ih =>
      intro s t h
      unfold discoverCustomProviders
      simp only [List.foldl_cons]
      exact ih (processModule s m) (processModule t m)
        (processModule_providers_congr m s t h)

theorem nodup_processAttrs (mn : String) (attrs : List ModuleAttr) :
    ∀ s : RegState, (dictKeys s.providers).Nodup →
      (dictKeys (processAttrs mn s attrs).providers).Nodup := by
  induction attrs with
  | nil => intro s h; exact h
  | cons a rest ih =>
      intro s h
      unfold processAttrs
      by_cases hq : qualifies a = true
      · cases hr : a.initRaises with
        | some e => simpa [hq, hr] using h
        | none =>
            simp only [hq, hr, if_pos]
            apply ih
            rw [registerAttr_providers]
            exact nodup_dictKeys_dictInsert _ _ _ h
      · simp only [hq]
        exact ih s h

theorem nodup_processModule (m : PluginModule) (s : RegState)
    (h : (dictKeys s.providers).Nodup) :
    (dictKeys (processModule s m).providers).Nodup := by
  unfold processModule
  cases m.importResult with
  | error e => exact h
  | ok attrs => exact nodup_processAttrs m.module_name attrs s h

theorem nodup_discover (mods : List PluginModule) :
    ∀ s : RegState, (dictKeys s.providers).Nodup →
      (dictKeys (discoverCustomProviders mods s).providers).Nodup := by
  induction mods with
  | nil => intro s h; exact h
  | cons m rest ih =>
      intro s h
      unfold discoverCustomProviders
      simp only [List.foldl_cons]
      exact ih (processModule s m) (nodup_processModule m s h)

theorem nodup_builtinStage (k : Nat) :
    (dictKeys (builtinStage k).providers).Nodup := by
  unfold builtinStage
  have hg : ∀ (cs : List ProviderClassV) (m : Dict), (dictKeys m).Nodup →
      (dictKeys (cs.foldl (fun m c => dictInsert c.name c m) m)).Nodup := by
    intro cs
    induction cs with
    | nil => intro m h; exact h
    | cons c rest ih =>
        intro m h
        simp only [List.foldl_cons]
        exact ih _ (nodup_dictKeys_dictInsert m c.name c h)
  exact hg _ [] (by simp [dictKeys_nil])

/-! ### Characterizations of the per-module attribute loop -/

theorem processAttrs_of_filter_nil (mn : String) (attrs : List ModuleAttr)
    (h : attrs.filter qualifies = []) : ∀ s : RegState, processAttrs mn s attrs = s := by
  induction attrs with
  | nil => intro s; rfl
  | cons a rest ih =>
      intro s
      rw [List.filter_cons] at h
      by_cases hq : qualifies a = true
      · rw [if_pos hq] at h
        exact absurd h (List.cons_ne_nil _ _)
      · rw [if_neg hq] at h
        unfold processAttrs
        simp only [hq]
        exact ih h s

theorem processAttrs_of_filter_single (mn : String) (attrs : List ModuleAttr)
    (a : ModuleAttr) (h : attrs.filter qualifies = [a]) (hr : a.initRaises = none) :
    ∀ s : RegState, processAttrs mn s attrs = registerAttr mn s a := by
  induction attrs with
  | nil => intro s; simp at h
  | cons b rest ih =>
      intro s
      rw [List.filter_cons] at h
      by_cases hq : qualifies b = true
      · rw [if_pos hq] at h
        have hba : b = a := (List.cons_eq_cons.mp h).1
        have hrest : rest.filter qualifies = [] := (List.cons_eq_cons.mp h).2.symm ▸ rfl
        subst hba
        unfold processAttrs
        simp only [hq, hr]
        exact processAttrs_of_filter_nil mn rest hrest _
      · rw [if_neg hq] at h
        unfold processAttrs
        simp only [hq]
        exact ih h s

theorem processAttrs_of_filter_head_raises (mn : String) (attrs : List ModuleAttr)
    (a : ModuleAttr) (tl : List ModuleAttr) (e : String)
    (h : attrs.filter qualifies = a :: tl) (hr : a.initRaises = some e) :
    ∀ s : RegState,
      processAttrs mn s attrs =
        { s with warnings := s.warnings ++ [RegWarning.loadFailure mn e] } := by
  induction attrs with
  | nil => intro s; simp at h
  | cons b rest ih =>
      intro s
      rw [List.filter_cons] at h
      by_cases hq : qualifies b = true
      · rw [if_pos hq] at h
        have hba : b = a := (List.cons_eq_cons.mp h).1
        subst hba
        unfold processAttrs
        simp [hq, hr]
      · rw [if_neg hq] at h
        unfold processAttrs
        simp only [hq]
        exact ih h s

theorem processAttrs_providers_foldl (mn : String) (attrs : List ModuleAttr)
    (h : ∀ a ∈ attrs, qualifies a = true → a.initRaises = none) :
    ∀ s : RegState,
      (processAttrs mn s attrs).providers =
        (attrs.filter qualifies).foldl
          (fun m a => dictInsert a.cls.name a.cls m) s.providers := by
  induction attrs with
  | nil => intro s; rfl
  | cons a rest ih =>
      intro s
      have hrest : ∀ b ∈ rest, qualifies b = true → b.initRaises = none :=
        fun b hb => h b (List.mem_cons_of_mem a hb)
      rw [List.filter_cons]
      by_cases hq : qualifies a = true
      · have hr : a.initRaises = none := h a (List.mem_cons_self a rest) hq
        rw [if_pos hq]
        unfold processAttrs
        simp only [hq, hr, if_true, List.foldl_cons]
        rw [ih hrest]
        congr 1
        exact registerAttr_providers mn s a
      · rw [if_neg hq]
        unfold processAttrs
        simp only [hq]
        exact ih hrest s

theorem processAttrs_all_qualify_foldl (mn : String) (good : List ModuleAttr)
    (h : ∀ b ∈ good, qualifies b = true ∧ b.initRaises = none) :
    ∀ s : RegState,
      processAttrs mn s good = good.foldl (fun u b => registerAttr mn u b) s := by
  induction good with
  | nil => intro s; rfl
  | cons b rest ih =>
      intro s
      have hb := h b (List.mem_cons_self b rest)
      unfold processAttrs
      simp only [hb.1, hb.2, if_true, List.foldl_cons]
      exact ih (fun c hc => h c (List.mem_cons_of_mem b hc)) _

theorem processAttrs_of_filter_raise (mn e : String) :
    ∀ (attrs good : List ModuleAttr) (a : ModuleAttr) (tl : List ModuleAttr),
      attrs.filter qualifies = good ++ a :: tl →
      (∀ b ∈ good, b.initRaises = none) →
      a.initRaises = some e →
      ∀ s : RegState,
        processAttrs mn s attrs =
          { good.foldl (fun u b => registerAttr mn u b) s with
            warnings := (good.foldl (fun u b => registerAttr mn u b) s).warnings ++
              [RegWarning.loadFailure mn e] } := by
  intro attrs
  induction attrs with
  | nil =>
      intro good a tl hfil
      simp at hfil
  | cons b rest ih =>
      intro good a tl hfil hgood hr s
      rw [List.filter_cons] at hfil
      by_cases hq : qualifies b = true
      · rw [if_pos hq] at hfil
        cases good with
        | nil =>
            simp only [List.nil_append] at hfil
            have hba : b = a := (List.cons_eq_cons.mp hfil).1
            subst hba
            unfold processAttrs
            simp [hq, hr]
        | cons g good2 =>
            rw [List.cons_append] at hfil
            have hbg : b = g := (List.cons_eq_cons.mp hfil).1
            have hrest : rest.filter qualifies = good2 ++ a :: tl :=
              (List.cons_eq_cons.mp hfil).2
            subst hbg
            have hbnone : b.initRaises = none := hgood b (List.mem_cons_self b good2)
            unfold processAttrs
            simp only [hq, hbnone, if_true, List.foldl_cons]
            exact ih good2 a tl hrest
              (fun c hc => hgood c (List.mem_cons_of_mem b hc)) hr _
      · rw [if_neg hq] at hfil
        unfold processAttrs
        simp only [hq]
        exact ih good a tl hfil hgood hr s

theorem discover_append_state (xs ys : List PluginModule) (s : RegState) :
    discoverCustomProviders (xs ++ ys) s =
      discoverCustomProviders ys (discoverCustomProviders xs s) := by
  unfold discoverCustomProviders
  rw [List.foldl_append]

theorem discover_middle (pre post : List PluginModule) (M : PluginModule)
    (s : RegState) :
    discoverCustomProviders (pre ++ M :: post) s =
      discoverCustomProviders post (processModule (discoverCustomProviders pre s) M) := by
  unfold discoverCustomProviders
  rw [show pre ++ M :: post = (pre ++ [M]) ++ post by simp]
  rw [List.foldl_append, List.foldl_append]
  rfl

/-! ### String-prefix lemmas for message checks -/

theorem listIsPrefixOf_append (p x y : List Char)
    (h : listIsPrefixOf p x = true) : listIsPrefixOf p (x ++ y) = true := by
  induction p generalizing x with
  | nil => rfl
  | cons a as ih =>
      cases x with
      | nil => simp [listIsPrefixOf] at h
      | cons b bs =>
          simp only [listIsPrefixOf, Bool.and_eq_true] at h
          simp only [List.cons_append, listIsPrefixOf, Bool.and_eq_true]
          exact ⟨h.1, ih bs h.2⟩

theorem strStartsWith_append (a b pre : String)
    (h : strStartsWith a pre = true) : strStartsWith (a ++ b) pre = true := by
  unfold strStartsWith at h ⊢
  rw [String.data_append]
  exact listIsPrefixOf_append pre.data a.data b.data h

/-! ### The claims -/

/-- C8: for every built-in provider (Ollama, OpenAI, Anthropic, Google,
Cerebras), validate_config applied to the empty configuration returns
(false, message) where the message names the missing required field
model_name.  The method is a total function of the configuration, so it
never raises. -/
theorem c8_builtin_validate_config_empty (p : BuiltinProvider) :
    (p.validate_config emptyConfig).1 = false ∧
    ∃ msg, (p.validate_config emptyConfig).2 = some msg ∧
      strStartsWith msg "model_name" = true := by
  cases p <;> exact ⟨rfl, _, rfl, by decide⟩

/-- C9 counterexample: MinimaxProvider.validate_config is not a function
of the config argument alone: with group_id absent from the config, the
result flips with the MINIMAX_GROUP_ID environment value. -/
theorem c9_counterexample :
    ProviderVariant.minimax.validate_config (some "1234567890123456789") c9Config ≠
      ProviderVariant.minimax.validate_config none c9Config := by
  decide

/-- C9 amended: every built-in validate_config is a deterministic
function of the config argument alone, unchanged under any ambient
MINIMAX_GROUP_ID environment value; the minimax variant additionally
reads that environment variable as a group_id fallback (and no variant
mutates any state, validation being a pure function in this model). -/
theorem c9_builtin_validate_config_env_independent (b : BuiltinProvider)
    (env env2 : Option String) (config : Config) :
    (ProviderVariant.builtin b).validate_config env config =
      (ProviderVariant.builtin b).validate_config env2 config := by
  cases b <;> rfl

/-- C10 counterexample: a present group_id that is the empty string (so
not a string of 19 digits) does not force (false, message): the empty
string is falsy, the environment value is consulted instead, and with a
valid environment group id the result is (true, none). -/
theorem c10_counterexample :
    MinimaxProvider.validate_config (some "1234567890123456789") c10Config =
      (true, none) ∧
    c10Config.group_id = some "" ∧ is19Digits "" = false := by
  decide

/-- C10 amended: for configs with truthy model_name and api_key,
validate_config returns (true, none) exactly when the effective group id
(the config value when non-empty, else the environment value) is a
string of exactly 19 decimal digits; a present NON-EMPTY group_id that
is not 19 digits yields (false, message) with the message reporting the
19-digit requirement.  A present empty-string group_id is falsy and
falls back to the environment. -/
theorem c10_minimax_group_id_validation (env : Option String) (config : Config)
    (h1 : truthy config.model_name = true) (h2 : truthy config.api_key = true) :
    (MinimaxProvider.validate_config env config = (true, none) ↔
      (match effectiveGroupId env config with
       | some g => is19Digits g
       | none => false) = true) ∧
    (groupIdPresentNonEmptyBad config = true →
      (MinimaxProvider.validate_config env config).1 = false ∧
      strStartsWith ((MinimaxProvider.validate_config env config).2.getD "")
        "MINIMAX_GROUP_ID should be a 19-digit number" = true) := by
  have hv : MinimaxProvider.validate_config env config =
      (match pyOr config.group_id env with
       | none =>
          (false, some "MINIMAX_GROUP_ID environment variable must be set. This is your 19-digit account identifier.")
       | some g =>
          if g.isEmpty then
            (false, some "MINIMAX_GROUP_ID environment variable must be set. This is your 19-digit account identifier.")
          else if !(pyIsDigit g) || g.length ≠ 19 then
            (false, some ("MINIMAX_GROUP_ID should be a 19-digit number, got: " ++ g))
          else (true, none)) := by
    unfold MinimaxProvider.validate_config
    rw [if_neg (by simp [h1]), if_neg (by simp [h2])]
  rw [hv]
  unfold effectiveGroupId
  constructor
  · cases heff : pyOr config.group_id env with
    | none => simp
    | some g =>
        by_cases hemp : g.isEmpty = true
        · simp [hemp, is19Digits, pyIsDigit]
        · by_cases hbad : (!(pyIsDigit g) || decide (g.length ≠ 19)) = true
          · have h19 : is19Digits g = false := by
              unfold is19Digits
              simp only [Bool.or_eq_true, Bool.not_eq_true', decide_eq_true_eq] at hbad
              rcases hbad with hx | hx
              · simp [hx]
              · simp [hx]
            simp only [Bool.or_eq_true, Bool.not_eq_true', decide_eq_true_eq] at hbad
            simp [hemp, h19]
            intro hd hl
            rcases hbad with hx | hx
            · rw [hd] at hx
              cases hx
            · exact hx hl
          · simp only [Bool.or_eq_true, Bool.not_eq_true', decide_eq_true_eq,
              not_or] at hbad
            have hdig : pyIsDigit g = true := by
              cases hx : pyIsDigit g
              · exact absurd hx hbad.1
              · rfl
            have hlen : g.length = 19 := by
              rcases hbad with ⟨_, hx⟩
              omega
            have h19 : is19Digits g = true := by
              unfold is19Digits
              simp [hdig, hlen]
            have hbadf : (!(pyIsDigit g) || decide (g.length ≠ 19)) = false := by
              simp [hdig, hlen]
            simp [hemp, hbadf, h19]
            exact ⟨hdig, hlen⟩
  · intro hbadcfg
    unfold groupIdPresentNonEmptyBad at hbadcfg
    cases hg : config.group_id with
    | none => rw [hg] at hbadcfg; simp at hbadcfg
    | some s =>
        rw [hg] at hbadcfg
        simp only [Bool.and_eq_true, Bool.not_eq_true'] at hbadcfg
        have heff : pyOr (some s) env = some s := by
          unfold pyOr truthy
          simp [hbadcfg.1]
        rw [heff]
        have hbadp : pyIsDigit s = false ∨ ¬ s.length = 19 := by
          have h19 := hbadcfg.2
          unfold is19Digits at h19
          by_cases hd : pyIsDigit s = true
          · right
            intro hc
            rw [hd, hc] at h19
            simp at h19
          · left
            cases hx : pyIsDigit s
            · rfl
            · exact absurd hx hd
        constructor
        · simp [hbadcfg.1]
          rcases hbadp with h | h
          · simp [h]
          · simp [h]
        · simp [hbadcfg.1]
          rcases hbadp with h | h
          · simp [h]
            apply strStartsWith_append
            decide
          · simp [h]
            apply strStartsWith_append
            decide

/-- C1: when a discovered custom provider reports a name equal to an
already-registered identifier, registration proceeds last-wins: after
discovery get_provider on the identifier returns the later class, and
exactly one override warning naming the identifier and the overriding
module is emitted.  The model is a total function, so no exception is
raised for the collision.  (Identifiers are lowercase per the provider
contract, hence the pyLower hypothesis.) -/
theorem c1_collision_last_registration_wins (s : RegState) (pre : List PluginModule)
    (M : PluginModule) (attrs : List ModuleAttr) (a : ModuleAttr) (nm : String)
    (himp : M.importResult = Except.ok attrs)
    (hfil : attrs.filter qualifies = [a])
    (hr : a.initRaises = none)
    (hname : a.cls.name = nm)
    (hlow : pyLower nm = nm)
    (hmem : nm ∈ dictKeys (discoverCustomProviders pre s).providers) :
    get_provider (discoverCustomProviders (pre ++ [M]) s).providers nm = some a.cls ∧
    (discoverCustomProviders (pre ++ [M]) s).warnings =
      (discoverCustomProviders pre s).warnings ++
        [RegWarning.overrideW nm M.module_name] := by
  have hsplit : discoverCustomProviders (pre ++ [M]) s =
      processModule (discoverCustomProviders pre s) M := by
    unfold discoverCustomProviders
    rw [List.foldl_append]
    rfl
  have hpm : processModule (discoverCustomProviders pre s) M =
      registerAttr M.module_name (discoverCustomProviders pre s) a := by
    unfold processModule
    rw [himp]
    exact processAttrs_of_filter_single M.module_name attrs a hfil hr _
  have hcont : dictContains (discoverCustomProviders pre s).providers nm = true :=
    (dictContains_iff_mem _ _).mpr hmem
  constructor
  · rw [hsplit, hpm]
    unfold get_provider
    rw [hlow, registerAttr_providers, hname]
    exact lookupDict_dictInsert_self _ _ _
  · rw [hsplit, hpm, registerAttr_warnings, hname, hcont]
    simp

theorem c1_witness :
    get_provider (discoverCustomProviders ([] ++ [overrideOllamaModule])
        (builtinStage 5)).providers "ollama" = some overrideOllamaAttr.cls ∧
    (discoverCustomProviders ([] ++ [overrideOllamaModule]) (builtinStage 5)).warnings =
      (discoverCustomProviders [] (builtinStage 5)).warnings ++
        [RegWarning.overrideW "ollama" overrideOllamaModule.module_name] :=
  c1_collision_last_registration_wins (builtinStage 5) [] overrideOllamaModule
    [overrideOllamaAttr] overrideOllamaAttr "ollama" rfl (by decide) rfl rfl
    (by decide) (by decide)

/-- C2: any exception during a module — its import raising, or any of
its qualifying classes raising on instantiation after the earlier ones
(good) registered — is caught at the per-module boundary: exactly one
load-failure warning naming the module and the error is appended, the
module contributes to the providers mapping exactly the registrations
made before the exception, and the providers of the whole discovery
equal those of the discovery with the failing module replaced by a
module registering just that successful prefix — so the other modules,
earlier or later in listing order, are processed identically and their
providers are registered regardless of the failure.  When nothing of
the failing module registered (import failure, or the first qualifying
class raises), the providers equal those of the discovery without the
module at all.  The discovery function is total: it never throws. -/
theorem c2_module_failure_isolated (s : RegState) (pre post : List PluginModule)
    (M : PluginModule) (good : List ModuleAttr) (e : String)
    (h : moduleFailsWith M good e) :
    (processModule s M).warnings =
      (good.foldl (fun u b => registerAttr M.module_name u b) s).warnings ++
        [RegWarning.loadFailure M.module_name e] ∧
    (processModule s M).providers =
      (good.foldl (fun u b => registerAttr M.module_name u b) s).providers ∧
    (discoverCustomProviders (pre ++ M :: post) s).providers =
      (discoverCustomProviders
        (pre ++ { module_name := M.module_name,
                  importResult := Except.ok good } :: post) s).providers ∧
    (good = [] →
      (discoverCustomProviders (pre ++ M :: post) s).providers =
        (discoverCustomProviders (pre ++ post) s).providers) := by
  have hM : ∀ t : RegState, processModule t M =
      { good.foldl (fun u b => registerAttr M.module_name u b) t with
        warnings := (good.foldl (fun u b => registerAttr M.module_name u b) t).warnings ++
          [RegWarning.loadFailure M.module_name e] } := by
    intro t
    rcases h with ⟨herr, hgood0⟩ | ⟨attrs, a, tl, himp, hfil, hgood, hr⟩
    · subst hgood0
      unfold processModule
      rw [herr]
      rfl
    · unfold processModule
      rw [himp]
      exact processAttrs_of_filter_raise M.module_name e attrs good a tl hfil hgood hr t
  have hqual : ∀ b ∈ good, qualifies b = true ∧ b.initRaises = none := by
    rcases h with ⟨herr, hgood0⟩ | ⟨attrs, a, tl, himp, hfil, hgood, hr⟩
    · subst hgood0
      intro b hb
      cases hb
    · intro b hb
      refine ⟨?_, hgood b hb⟩
      have hmem : b ∈ attrs.filter qualifies := by
        rw [hfil]
        exact List.mem_append_left _ hb
      exact List.of_mem_filter hmem
  have htrunc : ∀ t : RegState,
      processModule t { module_name := M.module_name, importResult := Except.ok good } =
        good.foldl (fun u b => registerAttr M.module_name u b) t := by
    intro t
    exact processAttrs_all_qualify_foldl M.module_name good hqual t
  refine ⟨by rw [hM s], by rw [hM s], ?_, ?_⟩
  · rw [discover_middle, discover_middle]
    apply discover_providers_congr
    rw [hM, htrunc]
  · intro hgood0
    subst hgood0
    rw [discover_middle, discover_append_state]
    apply discover_providers_congr
    rw [hM]
    rfl

theorem c2_witness :
    (processModule (builtinStage 5) partialFailModule).warnings =
      ([partialOkAttr].foldl
        (fun u b => registerAttr partialFailModule.module_name u b)
        (builtinStage 5)).warnings ++
        [RegWarning.loadFailure partialFailModule.module_name
          "TypeError: abstract method not implemented"] ∧
    (processModule (builtinStage 5) partialFailModule).providers =
      ([partialOkAttr].foldl
        (fun u b => registerAttr partialFailModule.module_name u b)
        (builtinStage 5)).providers ∧
    (discoverCustomProviders ([] ++ partialFailModule :: [minimaxModule])
        (builtinStage 5)).providers =
      (discoverCustomProviders
        ([] ++ { module_name := partialFailModule.module_name,
                 importResult := Except.ok [partialOkAttr] } :: [minimaxModule])
        (builtinStage 5)).providers :=
  have h := c2_module_failure_isolated (builtinStage 5) [] [minimaxModule]
    partialFailModule [partialOkAttr]
    "TypeError: abstract method not implemented"
    (Or.inr ⟨[partialOkAttr, partialRaisingAttr], partialRaisingAttr, [],
      rfl, by decide, by decide, rfl⟩)
  ⟨h.1, h.2.1, h.2.2.1⟩

/-- C3: a successfully loaded module (import succeeded, no qualifying
class raises on instantiation) registers exactly its qualifying exported
symbols: those that are classes, subclasses of BaseProvider, and not
BaseProvider itself.  The abstract base never qualifies, and a module
with zero qualifying symbols leaves the whole state unchanged — no
registry entries and no warning. -/
theorem c3_successful_module_registers_qualifying (s : RegState) (mn : String)
    (attrs : List ModuleAttr)
    (h : ∀ a ∈ attrs, qualifies a = true → a.initRaises = none) :
    (processModule s ⟨mn, Except.ok attrs⟩).providers =
      (attrs.filter qualifies).foldl
        (fun m a => dictInsert a.cls.name a.cls m) s.providers ∧
    (∀ a ∈ attrs, a.isBaseProviderItself = true → qualifies a = false) ∧
    (attrs.filter qualifies = [] → processModule s ⟨mn, Except.ok attrs⟩ = s) := by
  refine ⟨?_, ?_, ?_⟩
  · exact processAttrs_providers_foldl mn attrs h s
  · intro a _ hb
    unfold qualifies
    rw [hb]
    simp
  · intro hf
    exact processAttrs_of_filter_nil mn attrs hf s

theorem c3_witness :
    (processModule (builtinStage 5) minimaxModule).providers =
      (minimaxModuleAttrs.filter qualifies).foldl
        (fun m a => dictInsert a.cls.name a.cls m) (builtinStage 5).providers :=
  (c3_successful_module_registers_qualifying (builtinStage 5) "minimax"
    minimaxModuleAttrs (by decide)).1

/-- C4: for every identifier registered in this repository's registry,
lookup is case-insensitive: any case variant of the identifier (any
string with the same lowercasing) yields the same get_provider result —
which is present — and the same is_provider_available answer. -/
theorem c4_get_provider_case_insensitive (n m2 : String)
    (hn : n ∈ dictKeys theRegistry.providers)
    (hm : pyLower m2 = pyLower n) :
    get_provider theRegistry.providers m2 = get_provider theRegistry.providers n ∧
    (get_provider theRegistry.providers n).isSome = true ∧
    is_provider_available theRegistry.providers m2 =
      is_provider_available theRegistry.providers n := by
  refine ⟨?_, ?_, ?_⟩
  · unfold get_provider
    rw [hm]
  · have hkeys : dictKeys theRegistry.providers =
        ["ollama", "openai", "anthropic", "google", "cerebras", "minimax"] := by
      decide
    rw [hkeys] at hn
    fin_cases hn <;> decide
  · unfold is_provider_available
    rw [hm]

theorem c4_witness :
    get_provider theRegistry.providers "OLLAMA" =
      get_provider theRegistry.providers "ollama" ∧
    (get_provider theRegistry.providers "ollama").isSome = true ∧
    is_provider_available theRegistry.providers "OLLAMA" =
      is_provider_available theRegistry.providers "ollama" :=
  c4_get_provider_case_insensitive "ollama" "OLLAMA" (by decide) (by decide)

/-- C5: at every instant of registry construction (after each builtin
registration and after custom discovery) the registered identifiers are
case-insensitively unique, and every mapping key is exactly the name
reported by the mapped provider class, not the discovered source symbol
name. -/
theorem c5_registry_invariants (s : RegState) (hs : s ∈ constructionStates) :
    ((dictKeys s.providers).map pyLower).Nodup ∧
    ∀ p ∈ s.providers, p.1 = p.2.name := by
  simp only [constructionStates, List.mem_append, List.mem_map, List.mem_range,
    List.mem_singleton] at hs
  rcases hs with ⟨k, hk, rfl⟩ | rfl
  · interval_cases k <;> exact ⟨by decide, by decide⟩
  · exact ⟨by decide, by decide⟩

theorem c5_witness : ((dictKeys theRegistry.providers).map pyLower).Nodup :=
  (c5_registry_invariants theRegistry (by decide)).1

/-- C6: for every identifier whose lowercasing is not a registered key,
get_provider and get_provider_info return None and
is_provider_available returns false; all three are total functions, so
no query throws for an unknown identifier. -/
theorem c6_unknown_identifier_absent (m : Dict) (n : String)
    (h : pyLower n ∉ dictKeys m) :
    get_provider m n = none ∧ get_provider_info m n = none ∧
    is_provider_available m n = false := by
  have hl : lookupDict m (pyLower n) = none := lookupDict_eq_none_of_not_mem m _ h
  refine ⟨hl, ?_, ?_⟩
  · unfold get_provider_info get_provider
    rw [hl]
  · unfold is_provider_available dictContains
    rw [hl]
    rfl

theorem c6_witness :
    get_provider theRegistry.providers "nonexistent" = none ∧
    get_provider_info theRegistry.providers "nonexistent" = none ∧
    is_provider_available theRegistry.providers "nonexistent" = false :=
  c6_unknown_identifier_absent theRegistry.providers "nonexistent" (by decide)

/-- C7: in every state the registry construction can reach — any prefix
of the builtin load followed by discovery over any sequence of plugin
modules — list_providers is sorted ascending in the lexicographic
code-point order and contains no duplicate identifiers. -/
theorem c7_list_providers_sorted_nodup (mods : List PluginModule) (k : Nat) :
    List.Sorted (fun a b => strLe a b = true)
      (list_providers (discoverCustomProviders mods (builtinStage k)).providers) ∧
    (list_providers (discoverCustomProviders mods (builtinStage k)).providers).Nodup := by
  unfold list_providers
  constructor
  · exact List.sorted_insertionSort _ _
  · have hnd := nodup_discover mods (builtinStage k) (nodup_builtinStage k)
    have hperm := List.perm_insertionSort (fun a b => strLe a b = true)
      (dictKeys (discoverCustomProviders mods (builtinStage k)).providers)
    exact hperm.nodup_iff.mpr hnd

theorem c10_witness :
    MinimaxProvider.validate_config none c9Config = (true, none) ↔
      (match effectiveGroupId none c9Config with
       | some g => is19Digits g
       | none => false) = true :=
  (c10_minimax_group_id_validation none c9Config (by decide) (by decide)).1
